import Mathlib

/-!
Shallow embedding of the terminal launch-info resolution, active-terminal
tracking and title-cache logic of the libapps terminal application
(`terminal_common.js`, and the tracker behaviour specified for
`terminal_active_tracker.js`).

JavaScript data is modelled as follows: optional string object fields become
`Option String` (with JS truthiness `strTruthy`: present and non-empty);
JS objects used as string maps (`localStorage`, per-window record storage,
plain `{vmName, containerName}` objects fed to `JSON.stringify`) become
association lists with first-match lookup; `JSON.parse` of the tmux URL
parameter is an external collaborator and is passed in as a
`String → Except String TmuxLaunchInfo` argument, so that a parse failure
propagates through `Except` exactly as a thrown exception propagates out of
`getTerminalLaunchInfo`.
-/

namespace Terminal

/-- JS truthiness of an optional string field: present and non-empty. -/
def strTruthy : Option String → Bool
  | none => false
  | some s => !s.isEmpty

/-- JS `s.startsWith(pre)` modelled on character lists. -/
def jsStartsWith (s pre : String) : Bool :=
  pre.toList.isPrefixOf s.toList

/-- JS `arg.split('=', 2)[1]`: the characters strictly between the first `=`
and the second `=` (or the end of the string); `""` when there is no `=`
(the callers only test truthiness, for which `undefined` and `""` agree). -/
def splitValue (arg : String) : String :=
  String.mk (((arg.toList.dropWhile (· ≠ '=')).drop 1).takeWhile (· ≠ '='))

/-- `ContainerId`: `{ vmName?: string, containerName?: string }`; a field is
`none` when the JS object does not have the key. -/
structure ContainerId where
  vmName : Option String := none
  containerName : Option String := none
deriving DecidableEq

/-- `TerminalInfo`: the opaque payload describing a running terminal session. -/
structure TerminalInfo where
  terminalId : Option String := none
  tmuxDriverChannel : Option String := none
  containerId : Option ContainerId := none
deriving DecidableEq

/-- The tracker's `parentTerminal` value: the spawning tab's title and
terminal info. -/
structure ParentTerminal where
  title : String
  terminalInfo : TerminalInfo
deriving DecidableEq

/-- `TmuxLaunchInfo` from `terminal_common.js`. -/
structure TmuxLaunchInfo where
  windowChannelName : Option String := none
  driverChannelName : String
deriving DecidableEq

/-- `VshLaunchInfo` from `terminal_common.js`. -/
structure VshLaunchInfo where
  args : List String
  containerId : ContainerId
  hasCwd : Bool
deriving DecidableEq

/-- `TerminalLaunchInfo`: exactly one variant, as the source's tagged union. -/
inductive TerminalLaunchInfo where
  | crosh
  | ssh
  | tmux (info : TmuxLaunchInfo)
  | vsh (info : VshLaunchInfo)
deriving DecidableEq

/-- The relevant parts of a browser `URL`: its host, pathname and search
parameters (as the ordered list of key/value pairs). -/
structure URL where
  host : String
  pathname : String
  searchParams : List (String × String)
deriving DecidableEq

/-- `urlParams.has(name)`. -/
def hasParam (params : List (String × String)) (name : String) : Bool :=
  params.any (fun p => p.1 == name)

/-- `urlParams.get(name)`: the first value under `name`, if any. -/
def getParam (params : List (String × String)) (name : String) : Option String :=
  (params.find? (fun p => p.1 == name)).map (·.2)

/-- `urlParams.getAll(name)`: every value under `name`, in order. -/
def getAllParams (params : List (String × String)) (name : String) : List String :=
  (params.filter (fun p => p.1 == name)).map (·.2)

def DEFAULT_VM_NAME : String := "termina"

def DEFAULT_CONTAINER_NAME : String := "penguin"

def TMUX_PARAM_NAME : String := "tmux"

/-- The default container id `{vmName: DEFAULT_VM_NAME,
containerName: DEFAULT_CONTAINER_NAME}`. -/
def defaultContainerId : ContainerId :=
  { vmName := some DEFAULT_VM_NAME, containerName := some DEFAULT_CONTAINER_NAME }

/-- The state of `getTerminalLaunchInfo`'s loop over `args[]`:
`containerId`, `outputArgs`, `inputArgsHasCwd` and `outputArgsHasCwd`. -/
structure ArgScanState where
  containerId : ContainerId
  outputArgs : List String
  inputArgsHasCwd : Bool
  outputArgsHasCwd : Bool
deriving DecidableEq

/-- One iteration of the `for (const arg of args)` loop of
`getTerminalLaunchInfo`: `--vm_name=`/`--target_container=` are extracted
into the container id (ignoring empty values, and not passed through),
`--cwd=` sets both cwd flags and is passed through, and every other
argument is passed through. -/
def scanArg (s : ArgScanState) (arg : String) : ArgScanState :=
  if jsStartsWith arg "--vm_name=" then
    let value := splitValue arg
    if value.isEmpty then s
    else { s with containerId := { s.containerId with vmName := some value } }
  else if jsStartsWith arg "--target_container=" then
    let value := splitValue arg
    if value.isEmpty then s
    else { s with containerId := { s.containerId with containerName := some value } }
  else if jsStartsWith arg "--cwd=" then
    { s with
        inputArgsHasCwd := true
        outputArgsHasCwd := true
        outputArgs := s.outputArgs ++ [arg] }
  else
    { s with outputArgs := s.outputArgs ++ [arg] }

/-- The initial state of the `args[]` loop: empty container id, no output
arguments, no cwd seen. -/
def argScanInit : ArgScanState :=
  { containerId := {}, outputArgs := [], inputArgsHasCwd := false,
    outputArgsHasCwd := false }

/-- The vsh tail of `getTerminalLaunchInfo` (the code after the crosh, ssh
and tmux branches): scan `args[]`, inherit the parent's container id
(`parentTerminalInfo?.containerId || {defaults}`) when none was specified,
re-emit the container flags, and follow the parent's cwd when no `--cwd=`
was supplied, the parent has a (truthy) terminal id, and the resolved
container id equals the parent container id in both fields. -/
def resolveVsh (parentTerminalInfo : Option TerminalInfo) (args : List String) :
    VshLaunchInfo :=
  let scan := args.foldl scanArg argScanInit
  let parentContainerId :=
    (parentTerminalInfo.bind (·.containerId)).getD defaultContainerId
  let containerId :=
    if scan.containerId.vmName = none ∧ scan.containerId.containerName = none then
      parentContainerId
    else scan.containerId
  let outputArgs := scan.outputArgs
    ++ (if strTruthy containerId.vmName then
          ["--vm_name=" ++ containerId.vmName.getD ""] else [])
    ++ (if strTruthy containerId.containerName then
          ["--target_container=" ++ containerId.containerName.getD ""] else [])
  let parentTerminalId := parentTerminalInfo.bind (·.terminalId)
  let followCwd := !scan.inputArgsHasCwd && strTruthy parentTerminalId
    && decide (containerId.vmName = parentContainerId.vmName)
    && decide (containerId.containerName = parentContainerId.containerName)
  { args := outputArgs
      ++ (if followCwd then
            ["--cwd=terminal_id:" ++ parentTerminalId.getD ""] else [])
    containerId := containerId
    hasCwd := scan.outputArgsHasCwd || followCwd }

/-- `getTerminalLaunchInfo` from `terminal_common.js`. The tracker argument
is reduced to its `parentTerminal` field (the only part the function reads);
`parseTmuxJson` stands for `JSON.parse` on the tmux URL parameter, and a
parse failure propagates as the `Except.error` of the call. -/
def getTerminalLaunchInfo (parseTmuxJson : String → Except String TmuxLaunchInfo)
    (parentTerminal : Option ParentTerminal) (isTmuxIntegrationEnabled : Bool)
    (url : URL) : Except String TerminalLaunchInfo :=
  if url.host = "crosh" then
    Except.ok TerminalLaunchInfo.crosh
  else if url.pathname = "/html/terminal_ssh.html" ∨ url.pathname = "/html/nassh.html" then
    Except.ok TerminalLaunchInfo.ssh
  else
    let urlParams := url.searchParams
    let parentTerminalInfo := parentTerminal.map (·.terminalInfo)
    if isTmuxIntegrationEnabled && hasParam urlParams TMUX_PARAM_NAME then
      Except.map TerminalLaunchInfo.tmux
        (parseTmuxJson ((getParam urlParams TMUX_PARAM_NAME).getD ""))
    else if isTmuxIntegrationEnabled && urlParams.isEmpty
        && strTruthy (parentTerminalInfo.bind (·.tmuxDriverChannel)) then
      Except.ok (TerminalLaunchInfo.tmux
        { driverChannelName :=
            (parentTerminalInfo.bind (·.tmuxDriverChannel)).getD "" })
    else
      Except.ok (TerminalLaunchInfo.vsh
        (resolveVsh parentTerminalInfo (getAllParams urlParams "args[]")))

/-- A key-value store (`window.localStorage`, and the per-window record
storage), modelled as an association list with first-match lookup. -/
def storeGet {α : Type} (storage : List (String × α)) (key : String) : Option α :=
  (storage.find? (fun p => p.1 == key)).map (·.2)

/-- `storage.setItem(key, v)`. -/
def storeSet {α : Type} (storage : List (String × α)) (key : String) (v : α) :
    List (String × α) :=
  (key, v) :: storage.filter (fun p => p.1 != key)

/-- `storage.removeItem(key)`. -/
def storeRemove {α : Type} (storage : List (String × α)) (key : String) :
    List (String × α) :=
  storage.filter (fun p => p.1 != key)

/-- The per-window `ActiveTerminalRecord` `{tabId, title, terminalInfo}`. -/
structure ActiveTerminalRecord where
  tabId : Nat
  title : String
  terminalInfo : TerminalInfo
deriving DecidableEq

/-- The per-window record storage. JSON serialization of records is modelled
as the identity round-trip on well-formed records (a record read back has
the same `tabId` it was written with). -/
abbrev WindowStorage := List (String × ActiveTerminalRecord)

/-- The mutable state of a `TerminalActiveTracker`: its tab id, the current
document title, its per-window storage key, the `active_` flag and the
current `terminalInfo_`. -/
structure TrackerState where
  tabId : Nat
  title : String
  key : String
  active : Bool
  terminalInfo : TerminalInfo
deriving DecidableEq

/-- Modelled from the spec: the implementation file
`terminal_active_tracker.js` is not among the repository sources (only its
unit tests are). Per the spec, `maybeUpdateWindowActiveTerminal()` writes
the record `{tabId, title, terminalInfo}` under this window's key only if
this tab is marked active and the current terminal info carries a non-empty
`terminalId`; otherwise it clears the persisted record, and only if that
record currently names this tab. -/
def maybeUpdateWindowActiveTerminal (t : TrackerState) (storage : WindowStorage) :
    WindowStorage :=
  if t.active && strTruthy t.terminalInfo.terminalId then
    storeSet storage t.key
      { tabId := t.tabId, title := t.title, terminalInfo := t.terminalInfo }
  else
    match storeGet storage t.key with
    | some r => if r.tabId = t.tabId then storeRemove storage t.key else storage
    | none => storage

/-- Modelled from the spec: the implementation file
`terminal_active_tracker.js` is not among the repository sources (only its
unit tests are). Per the spec, `onUnload_()` clears the persisted record for
this window only if it currently names this tab, compared by tabId equality
after the JSON round-trip (modelled as the identity on well-formed
records). -/
def onUnload (t : TrackerState) (storage : WindowStorage) : WindowStorage :=
  match storeGet storage t.key with
  | some r => if r.tabId = t.tabId then storeRemove storage t.key else storage
  | none => storage

/-- One hex digit, for JSON control-character escapes. -/
def hexDigit (n : Nat) : Char :=
  if n < 10 then Char.ofNat (48 + n) else Char.ofNat (87 + n)

/-- The escape `JSON.stringify` applies to one character of a string:
quote, backslash and the named control escapes, `\u00XX` for the other
control characters, and every other character verbatim. -/
def jsonEscapeChar (c : Char) : String :=
  if c = '"' then "\\\""
  else if c = '\\' then "\\\\"
  else if c = '\n' then "\\n"
  else if c = '\r' then "\\r"
  else if c = '\t' then "\\t"
  else if c.toNat = 8 then "\\b"
  else if c.toNat = 12 then "\\f"
  else if c.toNat < 32 then
    "\\u00" ++ String.mk [hexDigit (c.toNat / 16), hexDigit (c.toNat % 16)]
  else String.singleton c

/-- `JSON.stringify` of a string. -/
def jsonQuote (s : String) : String :=
  "\"" ++ String.join (s.toList.map jsonEscapeChar) ++ "\""

/-- `JSON.stringify(obj, props)` for a flat object of string properties with
an array replacer: the listed properties, in the replacer's order, each
serialized when the object has it. The JS object is an association list
with first-match lookup. -/
def jsonStringifyPicked (obj : List (String × String)) (props : List String) :
    String :=
  "\x7b" ++ String.intercalate ","
    (props.filterMap (fun k =>
      (storeGet obj k).map (fun v => jsonQuote k ++ ":" ++ jsonQuote v)))
  ++ "\x7d"

/-- `getInitialTitleCacheKey` from `terminal_common.js`:
`'cachedInitialTitle-' + JSON.stringify(containerId, ['containerName',
'vmName'])`, taking the container id as the underlying JS object. -/
def getInitialTitleCacheKey (containerId : List (String × String)) : String :=
  "cachedInitialTitle-" ++ jsonStringifyPicked containerId ["containerName", "vmName"]

/-- The JS object underlying a `ContainerId` value, with the fields in the
order `getTerminalLaunchInfo`'s scan inserts them; `getInitialTitleCacheKey`
is insensitive to this order. -/
def ContainerId.toObject (c : ContainerId) : List (String × String) :=
  (match c.vmName with | some v => [("vmName", v)] | none => [])
  ++ (match c.containerName with | some v => [("containerName", v)] | none => [])

/-- `composeTitle` from `terminal_common.js`:
`'<>@' + (containerName || vmName || '') + ':~'`. -/
def composeTitle (containerId : ContainerId) : String :=
  let suffix :=
    (if strTruthy containerId.containerName then containerId.containerName.getD ""
     else if strTruthy containerId.vmName then containerId.vmName.getD ""
     else "") ++ ":~"
  "<>@" ++ suffix

/-- The initial-document-title computation of `setUpTitleHandler`'s vsh
branch: with a parent terminal, the parent's title verbatim; otherwise the
cached title under this container's key; otherwise, for a non-default
container, `composeTitle`; otherwise the document title is left as it is. -/
def vshInitialTitle (localStorage : List (String × String))
    (parentTerminal : Option ParentTerminal) (containerId : ContainerId)
    (currentTitle : String) : String :=
  match parentTerminal with
  | some p => p.title
  | none =>
    let key := getInitialTitleCacheKey containerId.toObject
    let title := storeGet localStorage key
    let title :=
      if title = none ∧ (containerId.vmName ≠ some DEFAULT_VM_NAME
          ∨ containerId.containerName ≠ some DEFAULT_CONTAINER_NAME) then
        some (composeTitle containerId)
      else title
    match title with
    | some s => s
    | none => currentTitle

/-- One invocation of `setUpTitleHandler`'s `MutationObserver` callback on a
title mutation: on the first mutation of a launch without a cwd argument the
observed title is stored in the title cache under `key`, `isFirstTitle`
becomes false, and `tracker.maybeUpdateWindowActiveTerminal()` runs on the
per-window record storage. Returns the new `isFirstTitle`, the title cache
and the record storage. -/
def titleMutationStep (hasCwd : Bool) (key : String) (tracker : TrackerState)
    (isFirstTitle : Bool) (localStorage : List (String × String))
    (windowStorage : WindowStorage) (observedTitle : String) :
    Bool × List (String × String) × WindowStorage :=
  let localStorage :=
    if isFirstTitle && !hasCwd then storeSet localStorage key observedTitle
    else localStorage
  (false, localStorage, maybeUpdateWindowActiveTerminal tracker windowStorage)

/-- The observer callback run over a whole session's sequence of title
mutations, threading `isFirstTitle`, the title cache and the record
storage. -/
def runTitleMutations (hasCwd : Bool) (key : String) (tracker : TrackerState) :
    Bool → List (String × String) → WindowStorage → List String →
    Bool × List (String × String) × WindowStorage
  | f, ls, ws, [] => (f, ls, ws)
  | f, ls, ws, title :: rest =>
    let s := titleMutationStep hasCwd key tracker f ls ws title
    runTitleMutations hasCwd key tracker s.1 s.2.1 s.2.2 rest

end Terminal

namespace Terminal

theorem find?_filter_bne {α : Type} (s : List (String × α)) (k k' : String)
    (h : k' ≠ k) :
    (s.filter (fun p => p.1 != k)).find? (fun p => p.1 == k')
      = s.find? (fun p => p.1 == k') := by
  induction s with
  | nil => rfl
  | cons a t ih =>
    by_cases ha : a.1 = k
    · have hkk : (k == k') = false := beq_eq_false_iff_ne.mpr (Ne.symm h)
      have h1 : (a.1 == k') = false := by rw [ha]; exact hkk
      have hf : (a.1 != k) = false := by rw [ha]; simp
      simp [List.filter_cons, List.find?_cons, h1, hf, ih]
    · have h2 : (a.1 != k) = true := by simp [bne, ha]
      by_cases hb : a.1 = k'
      · simp [List.filter_cons, h2, List.find?_cons, hb, h]
      · simp [List.filter_cons, h2, List.find?_cons, hb, ih, h]

theorem storeGet_set_self {α : Type} (s : List (String × α)) (k : String) (v : α) :
    storeGet (storeSet s k v) k = some v := by
  simp [storeGet, storeSet, List.find?_cons]

theorem storeGet_set_ne {α : Type} (s : List (String × α)) (k k' : String) (v : α)
    (h : k' ≠ k) :
    storeGet (storeSet s k v) k' = storeGet s k' := by
  have h1 : (k == k') = false := by simp; exact Ne.symm h
  simp only [storeGet, storeSet, List.find?_cons, h1]
  rw [find?_filter_bne s k k' h]

theorem storeGet_remove_self {α : Type} (s : List (String × α)) (k : String) :
    storeGet (storeRemove s k) k = none := by
  have hn : (s.filter (fun p => p.1 != k)).find? (fun p => p.1 == k) = none := by
    rw [List.find?_eq_none]
    intro x hx
    rw [List.mem_filter] at hx
    simpa using hx.2
  simp [storeGet, storeRemove, hn]

theorem storeGet_remove_ne {α : Type} (s : List (String × α)) (k k' : String)
    (h : k' ≠ k) :
    storeGet (storeRemove s k) k' = storeGet s k' := by
  simp only [storeGet, storeRemove]
  rw [find?_filter_bne s k k' h]

theorem jsStartsWith_disjoint {a p q : String}
    (h1 : jsStartsWith a p = true)
    (hpq : ¬ p.toList <+: q.toList) (hqp : ¬ q.toList <+: p.toList) :
    jsStartsWith a q = false := by
  rw [jsStartsWith, List.isPrefixOf_iff_prefix] at h1
  rw [jsStartsWith]
  rw [← Bool.not_eq_true, List.isPrefixOf_iff_prefix]
  intro h2
  rcases List.prefix_or_prefix_of_prefix h1 h2 with hc | hc
  · exact hpq hc
  · exact hqp hc

theorem not_cwd_of_vm {a : String} (h : jsStartsWith a "--vm_name=" = true) :
    jsStartsWith a "--cwd=" = false :=
  jsStartsWith_disjoint h (by decide) (by decide)

theorem not_cwd_of_tc {a : String}
    (h : jsStartsWith a "--target_container=" = true) :
    jsStartsWith a "--cwd=" = false :=
  jsStartsWith_disjoint h (by decide) (by decide)

end Terminal

namespace Terminal

theorem not_tc_of_vm {a : String} (h : jsStartsWith a "--vm_name=" = true) :
    jsStartsWith a "--target_container=" = false :=
  jsStartsWith_disjoint h (by decide) (by decide)

theorem scanArg_outputArgs (init : ArgScanState) (a : String) :
    (scanArg init a).outputArgs =
      if jsStartsWith a "--vm_name=" || jsStartsWith a "--target_container=" then
        init.outputArgs
      else init.outputArgs ++ [a] := by
  rw [scanArg]
  cases h1 : jsStartsWith a "--vm_name=" with
  | true =>
    simp only [h1, Bool.true_or, if_true]
    split <;> rfl
  | false =>
    cases h2 : jsStartsWith a "--target_container=" with
    | true =>
      simp only [h1, h2, Bool.false_or, Bool.false_eq_true, if_false, if_true]
      split <;> rfl
    | false =>
      cases h3 : jsStartsWith a "--cwd=" with
      | true => simp [h1, h2, h3]
      | false => simp [h1, h2, h3]

theorem scanArg_inputArgsHasCwd (init : ArgScanState) (a : String) :
    (scanArg init a).inputArgsHasCwd
      = (init.inputArgsHasCwd || jsStartsWith a "--cwd=") := by
  rw [scanArg]
  cases h1 : jsStartsWith a "--vm_name=" with
  | true =>
    have hc := not_cwd_of_vm h1
    simp only [h1, if_true, hc, Bool.or_false]
    split <;> rfl
  | false =>
    cases h2 : jsStartsWith a "--target_container=" with
    | true =>
      have hc := not_cwd_of_tc h2
      simp only [h1, h2, Bool.false_eq_true, if_false, if_true, hc, Bool.or_false]
      split <;> rfl
    | false =>
      cases h3 : jsStartsWith a "--cwd=" with
      | true => simp [h1, h2, h3]
      | false => simp [h1, h2, h3]

theorem scanArg_outputArgsHasCwd (init : ArgScanState) (a : String) :
    (scanArg init a).outputArgsHasCwd
      = (init.outputArgsHasCwd || jsStartsWith a "--cwd=") := by
  rw [scanArg]
  cases h1 : jsStartsWith a "--vm_name=" with
  | true =>
    have hc := not_cwd_of_vm h1
    simp only [h1, if_true, hc, Bool.or_false]
    split <;> rfl
  | false =>
    cases h2 : jsStartsWith a "--target_container=" with
    | true =>
      have hc := not_cwd_of_tc h2
      simp only [h1, h2, Bool.false_eq_true, if_false, if_true, hc, Bool.or_false]
      split <;> rfl
    | false =>
      cases h3 : jsStartsWith a "--cwd=" with
      | true => simp [h1, h2, h3]
      | false => simp [h1, h2, h3]

theorem scanArg_containerId_of_skip (init : ArgScanState) (a : String)
    (hvm : ¬(jsStartsWith a "--vm_name=" = true ∧ splitValue a ≠ ""))
    (htc : ¬(jsStartsWith a "--target_container=" = true ∧ splitValue a ≠ "")) :
    (scanArg init a).containerId = init.containerId := by
  rw [scanArg]
  cases h1 : jsStartsWith a "--vm_name=" with
  | true =>
    have hv : splitValue a = "" := by
      by_contra hv
      exact hvm ⟨h1, hv⟩
    have hv2 : (splitValue a).isEmpty = true := by rw [hv]; rfl
    simp [h1, hv2]
  | false =>
    cases h2 : jsStartsWith a "--target_container=" with
    | true =>
      have hv : splitValue a = "" := by
        by_contra hv
        exact htc ⟨h2, hv⟩
      have hv2 : (splitValue a).isEmpty = true := by rw [hv]; rfl
      simp [h1, h2, hv2]
    | false =>
      cases h3 : jsStartsWith a "--cwd=" with
      | true => simp [h1, h2, h3]
      | false => simp [h1, h2, h3]

theorem scanArg_foldl_outputArgs (args : List String) (init : ArgScanState) :
    (args.foldl scanArg init).outputArgs
      = init.outputArgs ++ args.filter (fun a =>
          !jsStartsWith a "--vm_name=" && !jsStartsWith a "--target_container=") := by
  induction args generalizing init with
  | nil => simp
  | cons a t ih =>
    rw [List.foldl_cons, ih, List.filter_cons, scanArg_outputArgs]
    cases h1 : jsStartsWith a "--vm_name=" with
    | true => simp [h1]
    | false =>
      cases h2 : jsStartsWith a "--target_container=" with
      | true => simp [h1, h2]
      | false => simp [h1, h2]

theorem scanArg_foldl_inputArgsHasCwd (args : List String) (init : ArgScanState) :
    (args.foldl scanArg init).inputArgsHasCwd
      = (init.inputArgsHasCwd || args.any (fun a => jsStartsWith a "--cwd=")) := by
  induction args generalizing init with
  | nil => simp
  | cons a t ih =>
    rw [List.foldl_cons, ih, List.any_cons, scanArg_inputArgsHasCwd, Bool.or_assoc]

theorem scanArg_foldl_outputArgsHasCwd (args : List String) (init : ArgScanState) :
    (args.foldl scanArg init).outputArgsHasCwd
      = (init.outputArgsHasCwd || args.any (fun a => jsStartsWith a "--cwd=")) := by
  induction args generalizing init with
  | nil => simp
  | cons a t ih =>
    rw [List.foldl_cons, ih, List.any_cons, scanArg_outputArgsHasCwd, Bool.or_assoc]

theorem scanArg_foldl_containerId_of_none (args : List String) (init : ArgScanState)
    (h : ∀ a ∈ args,
        ¬(jsStartsWith a "--vm_name=" = true ∧ splitValue a ≠ "")
        ∧ ¬(jsStartsWith a "--target_container=" = true ∧ splitValue a ≠ "")) :
    (args.foldl scanArg init).containerId = init.containerId := by
  induction args generalizing init with
  | nil => rfl
  | cons a t ih =>
    have ha := h a (List.mem_cons_self a t)
    rw [List.foldl_cons, ih (scanArg init a) (fun x hx => h x (List.mem_cons_of_mem a hx)),
      scanArg_containerId_of_skip init a ha.1 ha.2]

end Terminal

namespace Terminal

theorem hasParam_of_getParam {params : List (String × String)} {name s : String}
    (h : getParam params name = some s) : hasParam params name = true := by
  induction params with
  | nil => simp [getParam] at h
  | cons a t ih =>
    cases hq : (a.1 == name) with
    | true => simp [hasParam, hq]
    | false =>
      rw [getParam, List.find?_cons, hq] at h
      simp only [hasParam, List.any_cons, hq, Bool.false_or]
      exact ih h

theorem getTerminalLaunchInfo_vsh_inv
    (parseTmuxJson : String → Except String TmuxLaunchInfo)
    (parentTerminal : Option ParentTerminal) (isTmuxIntegrationEnabled : Bool)
    (url : URL) (v : VshLaunchInfo)
    (h : getTerminalLaunchInfo parseTmuxJson parentTerminal isTmuxIntegrationEnabled url
      = Except.ok (TerminalLaunchInfo.vsh v)) :
    v = resolveVsh (parentTerminal.map (·.terminalInfo))
          (getAllParams url.searchParams "args[]") := by
  rw [getTerminalLaunchInfo] at h
  dsimp only at h
  split at h
  · simp at h
  · split at h
    · simp at h
    · split at h
      · cases hp : parseTmuxJson ((getParam url.searchParams TMUX_PARAM_NAME).getD "") with
        | ok t => rw [hp] at h; simp [Except.map] at h
        | error e => rw [hp] at h; simp [Except.map] at h
      · split at h
        · simp at h
        · simp only [Except.ok.injEq] at h
          cases h
          rfl

end Terminal

namespace Terminal

/-- Characterization of `resolveVsh` in terms of direct list operations on
the input arguments: the passthrough arguments are the input arguments that
are not `--vm_name=`/`--target_container=` flags, the cwd flags reflect the
presence of a `--cwd=` input argument, and the parent cwd is followed
exactly when there is no `--cwd=` input argument, the parent terminal id is
non-empty and the resolved container id agrees with the parent container id
in both fields. -/
theorem resolveVsh_characterization (pti : Option TerminalInfo) (args : List String) :
    let parentContainerId := (pti.bind (·.containerId)).getD defaultContainerId
    let scanCid := (args.foldl scanArg argScanInit).containerId
    let cid := if scanCid.vmName = none ∧ scanCid.containerName = none then
        parentContainerId else scanCid
    let pid := pti.bind (·.terminalId)
    let inCwd := args.any (fun a => jsStartsWith a "--cwd=")
    let base := args.filter (fun a =>
        !jsStartsWith a "--vm_name=" && !jsStartsWith a "--target_container=")
      ++ (if strTruthy cid.vmName then ["--vm_name=" ++ cid.vmName.getD ""] else [])
      ++ (if strTruthy cid.containerName then
            ["--target_container=" ++ cid.containerName.getD ""] else [])
    let follow := !inCwd && strTruthy pid
      && decide (cid.vmName = parentContainerId.vmName)
      && decide (cid.containerName = parentContainerId.containerName)
    resolveVsh pti args =
      { args := base
          ++ (if follow then ["--cwd=terminal_id:" ++ pid.getD ""] else [])
        containerId := cid
        hasCwd := inCwd || follow } := by
  dsimp only
  rw [resolveVsh]
  have ho : argScanInit.outputArgs = [] := rfl
  have hi : argScanInit.inputArgsHasCwd = false := rfl
  have hoc : argScanInit.outputArgsHasCwd = false := rfl
  simp only [scanArg_foldl_outputArgs, scanArg_foldl_inputArgsHasCwd,
    scanArg_foldl_outputArgsHasCwd, ho, hi, hoc, List.nil_append, Bool.false_or]

end Terminal

namespace Terminal

/-- C1: for every URL resolving to a vsh launch, the
`--cwd=terminal_id:<parentTerminalId>` argument is appended (and `hasCwd`
set) exactly when no `--cwd=` argument was supplied in the input `args[]`,
a parent terminal with a non-empty terminalId exists, and the resolved
container id equals the parent container id in both fields; and the P6
example: parent container `{vmName:'termina',containerName:'work'}` with
child args `['--target_container=other']` resolves to container
`{containerName:'other'}` with no `--cwd=` appended and `hasCwd=false`. -/
theorem getTerminalLaunchInfo_cwd_inheritance
    (parseTmuxJson : String → Except String TmuxLaunchInfo)
    (parentTerminal : Option ParentTerminal) (isTmuxIntegrationEnabled : Bool)
    (url : URL) (v : VshLaunchInfo)
    (h : getTerminalLaunchInfo parseTmuxJson parentTerminal isTmuxIntegrationEnabled url
      = Except.ok (TerminalLaunchInfo.vsh v)) :
    (let args := getAllParams url.searchParams "args[]"
     let parentTerminalInfo := parentTerminal.map (·.terminalInfo)
     let parentContainerId :=
       (parentTerminalInfo.bind (·.containerId)).getD defaultContainerId
     let parentTerminalId := parentTerminalInfo.bind (·.terminalId)
     let base := args.filter (fun a =>
         !jsStartsWith a "--vm_name=" && !jsStartsWith a "--target_container=")
       ++ (if strTruthy v.containerId.vmName then
             ["--vm_name=" ++ v.containerId.vmName.getD ""] else [])
       ++ (if strTruthy v.containerId.containerName then
             ["--target_container=" ++ v.containerId.containerName.getD ""] else [])
     let cond := args.any (fun a => jsStartsWith a "--cwd=") = false
       ∧ strTruthy parentTerminalId = true
       ∧ v.containerId.vmName = parentContainerId.vmName
       ∧ v.containerId.containerName = parentContainerId.containerName
     (cond →
        v.args = base ++ ["--cwd=terminal_id:" ++ parentTerminalId.getD ""]
        ∧ v.hasCwd = true)
     ∧ (¬cond →
        v.args = base
        ∧ (v.hasCwd = true ↔ args.any (fun a => jsStartsWith a "--cwd=") = true)))
    ∧ getTerminalLaunchInfo (fun _ => Except.error "bad")
        (some ⟨"ptitle", ⟨some "tid", none, some ⟨some "termina", some "work"⟩⟩⟩) false
        ⟨"terminal", "/html/terminal.html", [("args[]", "--target_container=other")]⟩
      = Except.ok (TerminalLaunchInfo.vsh
          { args := ["--target_container=other"]
            containerId := { vmName := none, containerName := some "other" }
            hasCwd := false }) := by
  refine ⟨?_, rfl⟩
  have hv := getTerminalLaunchInfo_vsh_inv parseTmuxJson parentTerminal
    isTmuxIntegrationEnabled url v h
  rw [resolveVsh_characterization] at hv
  dsimp only at hv ⊢
  subst hv
  dsimp only
  set args := getAllParams url.searchParams "args[]" with hargs
  set pti := parentTerminal.map (·.terminalInfo) with hpti
  set pcid := (pti.bind (·.containerId)).getD defaultContainerId with hpcid
  set pid := pti.bind (·.terminalId) with hpid
  set scanCid := (args.foldl scanArg argScanInit).containerId with hscanCid
  set cid := if scanCid.vmName = none ∧ scanCid.containerName = none then
      pcid else scanCid with hcid
  set inCwd := args.any (fun a => jsStartsWith a "--cwd=") with hinCwd
  set follow := !inCwd && strTruthy pid
    && decide (cid.vmName = pcid.vmName)
    && decide (cid.containerName = pcid.containerName) with hfollow
  have hiff : follow = true ↔
      (inCwd = false ∧ strTruthy pid = true
        ∧ cid.vmName = pcid.vmName ∧ cid.containerName = pcid.containerName) := by
    rw [hfollow]
    simp [Bool.and_eq_true, Bool.not_eq_true', and_assoc]
  constructor
  · intro hcond
    have hf : follow = true := hiff.mpr hcond
    rw [hf]
    simp [hcond.1]
  · intro hcond
    have hf : follow = false := by
      cases hfb : follow with
      | true => exact absurd (hiff.mp hfb) hcond
      | false => rfl
    rw [hf]
    simp

end Terminal

namespace Terminal

/-- C2 (amended): when the input `args[]` carry no non-empty
`--vm_name=`/`--target_container=` value, the resolved container id is the
parent's `containerId` object exactly as stored when the parent terminal
info has one (no field-by-field defaulting), or
`{vmName:'termina',containerName:'penguin'}` when there is no parent or the
parent has no containerId; container flags are re-emitted only for fields
of the resolved id that are present and non-empty; and the P5 example:
parent container `{vmName:'termina',containerName:'work'}` with a child URL
carrying no container args resolves to that container id with both flags
appended. -/
theorem getTerminalLaunchInfo_container_inheritance
    (parseTmuxJson : String → Except String TmuxLaunchInfo)
    (parentTerminal : Option ParentTerminal) (isTmuxIntegrationEnabled : Bool)
    (url : URL) (v : VshLaunchInfo)
    (h : getTerminalLaunchInfo parseTmuxJson parentTerminal isTmuxIntegrationEnabled url
      = Except.ok (TerminalLaunchInfo.vsh v))
    (hnoc : ∀ a ∈ getAllParams url.searchParams "args[]",
        ¬(jsStartsWith a "--vm_name=" = true ∧ splitValue a ≠ "")
        ∧ ¬(jsStartsWith a "--target_container=" = true ∧ splitValue a ≠ "")) :
    (v.containerId
      = ((parentTerminal.map (·.terminalInfo)).bind (·.containerId)).getD defaultContainerId
    ∧ (strTruthy v.containerId.vmName = true →
        ("--vm_name=" ++ v.containerId.vmName.getD "") ∈ v.args)
    ∧ (strTruthy v.containerId.containerName = true →
        ("--target_container=" ++ v.containerId.containerName.getD "") ∈ v.args))
    ∧ getTerminalLaunchInfo (fun _ => Except.error "bad")
        (some ⟨"ptitle", ⟨some "tid", none, some ⟨some "termina", some "work"⟩⟩⟩) false
        ⟨"terminal", "/html/terminal.html", []⟩
      = Except.ok (TerminalLaunchInfo.vsh
          { args := ["--vm_name=termina", "--target_container=work",
                     "--cwd=terminal_id:tid"]
            containerId := { vmName := some "termina", containerName := some "work" }
            hasCwd := true }) := by
  refine ⟨?_, rfl⟩
  have hv := getTerminalLaunchInfo_vsh_inv parseTmuxJson parentTerminal
    isTmuxIntegrationEnabled url v h
  rw [resolveVsh_characterization] at hv
  rw [scanArg_foldl_containerId_of_none _ _ hnoc] at hv
  have hvm : argScanInit.containerId.vmName = none := rfl
  have hcn : argScanInit.containerId.containerName = none := rfl
  simp only [hvm, hcn, eq_self_iff_true, and_self, if_true] at hv
  subst hv
  refine ⟨rfl, fun ht => ?_, fun ht => ?_⟩
  · simp [ht]
  · simp [ht]

/-- C2 counterexample: with a parent whose container id is
`{containerName:'work'}` (vmName absent) and a child URL with no container
arguments, the resolved container id keeps `vmName` absent — the parent's
container id is not canonicalized field-by-field to
`{vmName:'termina',containerName:'work'}` and no `--vm_name=` flag is
emitted, refuting the claimed per-field defaulting. -/
theorem getTerminalLaunchInfo_no_field_canonicalization_cex :
    getTerminalLaunchInfo (fun _ => Except.error "bad")
        (some ⟨"ptitle", ⟨some "tid", none, some ⟨none, some "work"⟩⟩⟩) false
        ⟨"terminal", "/html/terminal.html", []⟩
      = Except.ok (TerminalLaunchInfo.vsh
          { args := ["--target_container=work", "--cwd=terminal_id:tid"]
            containerId := { vmName := none, containerName := some "work" }
            hasCwd := true })
    ∧ ({ vmName := none, containerName := some "work" } : ContainerId)
        ≠ { vmName := some "termina", containerName := some "work" } :=
  ⟨rfl, by decide⟩

/-- C10 (implicit): for every URL whose host is not `crosh` and whose
pathname is `/html/terminal_ssh.html` or `/html/nassh.html`,
`getTerminalLaunchInfo` returns the ssh variant regardless of query
parameters, parent terminal info, or the tmux-integration flag. -/
theorem getTerminalLaunchInfo_ssh_two_paths
    (parseTmuxJson : String → Except String TmuxLaunchInfo)
    (parentTerminal : Option ParentTerminal) (isTmuxIntegrationEnabled : Bool)
    (url : URL)
    (hhost : url.host ≠ "crosh")
    (hpath : url.pathname = "/html/terminal_ssh.html"
      ∨ url.pathname = "/html/nassh.html") :
    getTerminalLaunchInfo parseTmuxJson parentTerminal isTmuxIntegrationEnabled url
      = Except.ok TerminalLaunchInfo.ssh := by
  rw [getTerminalLaunchInfo, if_neg hhost, if_pos hpath]

/-- Witness for C10 at a concrete input: the `/html/nassh.html` path with a
tmux query parameter and the flag enabled still resolves to ssh. -/
theorem getTerminalLaunchInfo_ssh_two_paths_witness :
    getTerminalLaunchInfo (fun _ => Except.error "bad") none true
      ⟨"terminal", "/html/nassh.html", [("tmux", "zzz")]⟩
      = Except.ok TerminalLaunchInfo.ssh :=
  getTerminalLaunchInfo_ssh_two_paths _ none true _ (by decide) (Or.inr rfl)

/-- C8: launch-info resolution is deterministic — two invocations of
`getTerminalLaunchInfo` on equal (parse function, parent terminal info,
tmux-integration flag, URL) inputs yield identical results. -/
theorem getTerminalLaunchInfo_deterministic
    (parse1 parse2 : String → Except String TmuxLaunchInfo)
    (pt1 pt2 : Option ParentTerminal) (flag1 flag2 : Bool) (url1 url2 : URL)
    (hp : parse1 = parse2) (hpt : pt1 = pt2) (hf : flag1 = flag2)
    (hu : url1 = url2) :
    getTerminalLaunchInfo parse1 pt1 flag1 url1
      = getTerminalLaunchInfo parse2 pt2 flag2 url2 := by
  rw [hp, hpt, hf, hu]

/-- Witness for C8 at a concrete input. -/
theorem getTerminalLaunchInfo_deterministic_witness :
    getTerminalLaunchInfo (fun _ => Except.error "e") none false
        ⟨"crosh", "/", []⟩
      = getTerminalLaunchInfo (fun _ => Except.error "e") none false
        ⟨"crosh", "/", []⟩ :=
  getTerminalLaunchInfo_deterministic _ _ _ _ _ _ _ _ rfl rfl rfl rfl

/-- C4: with tmux integration enabled and a tmux URL parameter present (on
a non-crosh, non-ssh URL), resolution returns the JSON parse of the
parameter wrapped as the tmux variant when the parse succeeds, and
propagates the parse error as the failure of the whole resolution call when
the parameter is malformed — it never falls through to another launch
variant. -/
theorem getTerminalLaunchInfo_tmux_param
    (parseTmuxJson : String → Except String TmuxLaunchInfo)
    (parentTerminal : Option ParentTerminal) (url : URL) (s : String)
    (hhost : url.host ≠ "crosh")
    (hp1 : url.pathname ≠ "/html/terminal_ssh.html")
    (hp2 : url.pathname ≠ "/html/nassh.html")
    (hs : getParam url.searchParams "tmux" = some s) :
    getTerminalLaunchInfo parseTmuxJson parentTerminal true url
      = Except.map TerminalLaunchInfo.tmux (parseTmuxJson s)
    ∧ (∀ t, parseTmuxJson s = Except.ok t →
        getTerminalLaunchInfo parseTmuxJson parentTerminal true url
          = Except.ok (TerminalLaunchInfo.tmux t))
    ∧ (∀ e, parseTmuxJson s = Except.error e →
        getTerminalLaunchInfo parseTmuxJson parentTerminal true url
          = Except.error e) := by
  have hmain : getTerminalLaunchInfo parseTmuxJson parentTerminal true url
      = Except.map TerminalLaunchInfo.tmux (parseTmuxJson s) := by
    rw [getTerminalLaunchInfo, if_neg hhost, if_neg (not_or.mpr ⟨hp1, hp2⟩)]
    dsimp only
    rw [if_pos]
    · have : (getParam url.searchParams TMUX_PARAM_NAME).getD "" = s := by
        rw [show TMUX_PARAM_NAME = "tmux" from rfl, hs]
        rfl
      rw [this]
    · rw [show TMUX_PARAM_NAME = "tmux" from rfl]
      simp [hasParam_of_getParam hs]
  refine ⟨hmain, fun t ht => ?_, fun e he => ?_⟩
  · rw [hmain, ht]
    rfl
  · rw [hmain, he]
    rfl

/-- Witness for C4 at a concrete input: the parse error of a malformed
tmux parameter propagates, and a successful parse yields the tmux
variant. -/
theorem getTerminalLaunchInfo_tmux_param_witness :
    getTerminalLaunchInfo (fun _ => Except.error "bad") none true
        ⟨"terminal", "/html/terminal.html", [("tmux", "zzz")]⟩
      = Except.map TerminalLaunchInfo.tmux
          ((fun (_ : String) => (Except.error "bad" : Except String TmuxLaunchInfo)) "zzz")
    ∧ (∀ t, (fun (_ : String) => (Except.error "bad" : Except String TmuxLaunchInfo)) "zzz"
          = Except.ok t →
        getTerminalLaunchInfo (fun _ => Except.error "bad") none true
            ⟨"terminal", "/html/terminal.html", [("tmux", "zzz")]⟩
          = Except.ok (TerminalLaunchInfo.tmux t))
    ∧ (∀ e, (fun (_ : String) => (Except.error "bad" : Except String TmuxLaunchInfo)) "zzz"
          = Except.error e →
        getTerminalLaunchInfo (fun _ => Except.error "bad") none true
            ⟨"terminal", "/html/terminal.html", [("tmux", "zzz")]⟩
          = Except.error e) :=
  getTerminalLaunchInfo_tmux_param _ none _ "zzz" (by decide) (by decide) (by decide) rfl

end Terminal

namespace Terminal

/-- Witness for C1 at the P6 input: parent container
`{vmName:'termina',containerName:'work'}`, child args
`['--target_container=other']` resolve with no cwd inheritance. -/
theorem getTerminalLaunchInfo_cwd_inheritance_witness :
    getTerminalLaunchInfo (fun _ => Except.error "bad")
        (some ⟨"ptitle", ⟨some "tid", none, some ⟨some "termina", some "work"⟩⟩⟩) false
        ⟨"terminal", "/html/terminal.html", [("args[]", "--target_container=other")]⟩
      = Except.ok (TerminalLaunchInfo.vsh
          { args := ["--target_container=other"]
            containerId := { vmName := none, containerName := some "other" }
            hasCwd := false }) :=
  (getTerminalLaunchInfo_cwd_inheritance (fun _ => Except.error "bad")
    (some ⟨"ptitle", ⟨some "tid", none, some ⟨some "termina", some "work"⟩⟩⟩) false
    ⟨"terminal", "/html/terminal.html", [("args[]", "--target_container=other")]⟩
    { args := ["--target_container=other"]
      containerId := { vmName := none, containerName := some "other" }
      hasCwd := false } rfl).2

/-- Witness for C2 at the P5 input: parent container
`{vmName:'termina',containerName:'work'}`, child URL with no container
args. -/
theorem getTerminalLaunchInfo_container_inheritance_witness :
    getTerminalLaunchInfo (fun _ => Except.error "bad")
        (some ⟨"ptitle", ⟨some "tid", none, some ⟨some "termina", some "work"⟩⟩⟩) false
        ⟨"terminal", "/html/terminal.html", []⟩
      = Except.ok (TerminalLaunchInfo.vsh
          { args := ["--vm_name=termina", "--target_container=work",
                     "--cwd=terminal_id:tid"]
            containerId := { vmName := some "termina", containerName := some "work" }
            hasCwd := true }) :=
  (getTerminalLaunchInfo_container_inheritance (fun _ => Except.error "bad")
    (some ⟨"ptitle", ⟨some "tid", none, some ⟨some "termina", some "work"⟩⟩⟩) false
    ⟨"terminal", "/html/terminal.html", []⟩
    { args := ["--vm_name=termina", "--target_container=work",
               "--cwd=terminal_id:tid"]
      containerId := { vmName := some "termina", containerName := some "work" }
      hasCwd := true } rfl
    (by intro a ha; simp [getAllParams] at ha)).2

/-- C3: after any call to `maybeUpdateWindowActiveTerminal()`, the record
stored under this window's key is `{tabId, title, terminalInfo}` for this
tab exactly when the tab is active and its terminal info carries a
non-empty terminalId; in every other case no record naming this tab is
stored, and an existing record naming another tab is left in place. -/
theorem maybeUpdateWindowActiveTerminal_spec (t : TrackerState)
    (storage : WindowStorage) :
    (storeGet (maybeUpdateWindowActiveTerminal t storage) t.key
        = some { tabId := t.tabId, title := t.title, terminalInfo := t.terminalInfo }
      ↔ (t.active = true ∧ strTruthy t.terminalInfo.terminalId = true))
    ∧ (¬(t.active = true ∧ strTruthy t.terminalInfo.terminalId = true) →
        (∀ r, storeGet (maybeUpdateWindowActiveTerminal t storage) t.key = some r →
          r.tabId ≠ t.tabId)
        ∧ (∀ r, storeGet storage t.key = some r → r.tabId ≠ t.tabId →
            storeGet (maybeUpdateWindowActiveTerminal t storage) t.key = some r)) := by
  by_cases hc : t.active = true ∧ strTruthy t.terminalInfo.terminalId = true
  · have hb : (t.active && strTruthy t.terminalInfo.terminalId) = true := by
      rw [hc.1, hc.2]
      rfl
    rw [maybeUpdateWindowActiveTerminal, if_pos hb]
    refine ⟨?_, fun hn => absurd hc hn⟩
    rw [storeGet_set_self]
    exact ⟨fun _ => hc, fun _ => rfl⟩
  · have hb : ¬((t.active && strTruthy t.terminalInfo.terminalId) = true) := by
      rw [Bool.and_eq_true]
      exact hc
    rw [maybeUpdateWindowActiveTerminal, if_neg hb]
    cases hg : storeGet storage t.key with
    | none =>
      dsimp only
      refine ⟨⟨fun hx => ?_, fun hx => absurd hx hc⟩,
              fun _ => ⟨fun r hr => ?_, fun r hr _ => ?_⟩⟩
      · rw [hg] at hx
        cases hx
      · rw [hg] at hr
        cases hr
      · cases hr
    | some r0 =>
      dsimp only
      by_cases ht : r0.tabId = t.tabId
      · rw [if_pos ht]
        refine ⟨⟨fun hx => ?_, fun hx => absurd hx hc⟩,
                fun _ => ⟨fun r hr => ?_, fun r hr hne => ?_⟩⟩
        · rw [storeGet_remove_self] at hx
          cases hx
        · rw [storeGet_remove_self] at hr
          cases hr
        · injection hr with hr2
          subst hr2
          exact (hne ht).elim
      · rw [if_neg ht]
        refine ⟨⟨fun hx => ?_, fun hx => absurd hx hc⟩,
                fun _ => ⟨fun r hr => ?_, fun r hr hne => ?_⟩⟩
        · rw [hg] at hx
          injection hx with hx2
          exact (ht (congrArg ActiveTerminalRecord.tabId hx2)).elim
        · rw [hg] at hr
          injection hr with hr2
          subst hr2
          exact ht
        · injection hr with hr2
          subst hr2
          exact hg

/-- C5: `onUnload_()` clears the persisted record exactly when the stored
record's tabId equals this tab's own tabId; a record naming a different tab
is left untouched. -/
theorem onUnload_spec (t : TrackerState) (storage : WindowStorage)
    (r : ActiveTerminalRecord) (h : storeGet storage t.key = some r) :
    onUnload t storage =
      if r.tabId = t.tabId then storeRemove storage t.key else storage := by
  rw [onUnload, h]

/-- Witness for C5 at a concrete input: a record naming tab 7 survives the
unload of tab 5. -/
theorem onUnload_spec_witness :
    onUnload { tabId := 5, title := "T", key := "w", active := true,
               terminalInfo := {} }
        [("w", { tabId := 7, title := "x", terminalInfo := {} })]
      = [("w", { tabId := 7, title := "x", terminalInfo := {} })] := by
  have h := onUnload_spec
    { tabId := 5, title := "T", key := "w", active := true, terminalInfo := {} }
    [("w", { tabId := 7, title := "x", terminalInfo := {} })]
    { tabId := 7, title := "x", terminalInfo := {} } rfl
  simpa using h

/-- C6: container-id objects agreeing on the `containerName` and `vmName`
properties produce the same title-cache storage key regardless of property
insertion order, and when both properties are present the key is
`cachedInitialTitle-` followed by the JSON object serializing
`containerName` before `vmName`. -/
theorem getInitialTitleCacheKey_stable (o1 o2 : List (String × String))
    (h1 : storeGet o1 "containerName" = storeGet o2 "containerName")
    (h2 : storeGet o1 "vmName" = storeGet o2 "vmName") :
    getInitialTitleCacheKey o1 = getInitialTitleCacheKey o2
    ∧ (∀ c v, storeGet o1 "containerName" = some c →
        storeGet o1 "vmName" = some v →
        getInitialTitleCacheKey o1
          = "cachedInitialTitle-\x7b\"containerName\":" ++ jsonQuote c
            ++ ",\"vmName\":" ++ jsonQuote v ++ "\x7d") := by
  constructor
  · rw [getInitialTitleCacheKey, getInitialTitleCacheKey,
      jsonStringifyPicked, jsonStringifyPicked]
    simp only [List.filterMap_cons, List.filterMap_nil]
    rw [h1, h2]
  · intro c v hc hv
    rw [getInitialTitleCacheKey, jsonStringifyPicked]
    simp only [List.filterMap_cons, List.filterMap_nil]
    rw [hc, hv]
    simp only [Option.map_some']
    have jq1 : jsonQuote "containerName" = "\"containerName\"" := by decide
    have jq2 : jsonQuote "vmName" = "\"vmName\"" := by decide
    have hi : ∀ x y : String, String.intercalate "," [x, y] = x ++ "," ++ y :=
      fun x y => rfl
    have hsA : ("cachedInitialTitle-\x7b\"containerName\":" : String)
        = "cachedInitialTitle-" ++ "\x7b" ++ "\"containerName\"" ++ ":" := by decide
    have hsB : (",\"vmName\":" : String) = "," ++ "\"vmName\"" ++ ":" := by decide
    rw [hi, jq1, jq2, hsA, hsB]
    simp only [String.append_assoc]

end Terminal

namespace Terminal

/-- Witness for C6 at concrete container-id objects with opposite insertion
orders. -/
theorem getInitialTitleCacheKey_stable_witness :
    getInitialTitleCacheKey [("vmName", "termina"), ("containerName", "penguin")]
      = getInitialTitleCacheKey [("containerName", "penguin"), ("vmName", "termina")] :=
  (getInitialTitleCacheKey_stable
    [("vmName", "termina"), ("containerName", "penguin")]
    [("containerName", "penguin"), ("vmName", "termina")] rfl rfl).1

/-- C7: after a session's title observer stores title `foo` into the cache
under container `{vmName:'termina',containerName:'penguin'}`, a new tab
resolving to a vsh launch with the same container id and no parent terminal
computes initial document title `foo` from the cache lookup. -/
theorem setUpTitleHandler_title_cache_roundtrip
    (parseTmuxJson : String → Except String TmuxLaunchInfo)
    (isTmuxIntegrationEnabled : Bool) (url : URL) (v : VshLaunchInfo)
    (tracker : TrackerState) (localStorage : List (String × String))
    (windowStorage : WindowStorage) (currentTitle : String)
    (h : getTerminalLaunchInfo parseTmuxJson none isTmuxIntegrationEnabled url
      = Except.ok (TerminalLaunchInfo.vsh v))
    (hcid : v.containerId
      = { vmName := some "termina", containerName := some "penguin" }) :
    vshInitialTitle
      (titleMutationStep false (getInitialTitleCacheKey v.containerId.toObject)
        tracker true localStorage windowStorage "foo").2.1
      none v.containerId currentTitle = "foo" := by
  have hstep : (titleMutationStep false
        (getInitialTitleCacheKey v.containerId.toObject)
        tracker true localStorage windowStorage "foo").2.1
      = storeSet localStorage (getInitialTitleCacheKey v.containerId.toObject) "foo" :=
    rfl
  rw [hstep, vshInitialTitle]
  rw [storeGet_set_self]
  simp

/-- Witness for C7 at a concrete input: a parentless URL with no arguments
resolves to the default container `{termina, penguin}`, and the stored title
`foo` is returned. -/
theorem setUpTitleHandler_title_cache_roundtrip_witness :
    vshInitialTitle
      (titleMutationStep false
        (getInitialTitleCacheKey
          (ContainerId.toObject
            { vmName := some "termina", containerName := some "penguin" }))
        { tabId := 1, title := "t", key := "w", active := true, terminalInfo := {} }
        true [] [] "foo").2.1
      none { vmName := some "termina", containerName := some "penguin" }
      "Terminal" = "foo" :=
  setUpTitleHandler_title_cache_roundtrip (fun _ => Except.error "bad") false
    ⟨"terminal", "/html/terminal.html", []⟩
    { args := ["--vm_name=termina", "--target_container=penguin"]
      containerId := { vmName := some "termina", containerName := some "penguin" }
      hasCwd := false }
    { tabId := 1, title := "t", key := "w", active := true, terminalInfo := {} }
    [] [] "Terminal" rfl rfl

/-- Running the observer with `isFirstTitle = false` never changes the
title cache. -/
theorem runTitleMutations_notFirst (hasCwd : Bool) (key : String)
    (tracker : TrackerState) (ls : List (String × String)) (ws : WindowStorage)
    (titles : List String) :
    (runTitleMutations hasCwd key tracker false ls ws titles).2.1 = ls := by
  induction titles generalizing ws with
  | nil => rfl
  | cons a rest ih =>
    rw [runTitleMutations]
    have hstep : titleMutationStep hasCwd key tracker false ls ws a
        = (false, ls, maybeUpdateWindowActiveTerminal tracker ws) := by
      rw [titleMutationStep]
      simp
    rw [hstep]
    exact ih _

/-- C9: on the first observed title mutation of a launch whose `hasCwd` is
false the observed title is stored in the cache under the container key;
a mutation observed with `isFirstTitle` already false leaves the cache
unchanged, and over a whole session the cache entry keeps the first
observed title; every mutation (first or later) runs
`maybeUpdateWindowActiveTerminal` on the per-window record storage and
clears `isFirstTitle`. -/
theorem titleMutationStep_spec (tracker : TrackerState) (key : String)
    (localStorage : List (String × String)) (windowStorage : WindowStorage)
    (hasCwd isFirstTitle : Bool) (title0 title : String) (rest : List String) :
    (titleMutationStep false key tracker true localStorage windowStorage title0).2.1
      = storeSet localStorage key title0
    ∧ (titleMutationStep hasCwd key tracker false localStorage windowStorage title).2.1
      = localStorage
    ∧ (titleMutationStep hasCwd key tracker isFirstTitle localStorage windowStorage
        title).1 = false
    ∧ (titleMutationStep hasCwd key tracker isFirstTitle localStorage windowStorage
        title).2.2 = maybeUpdateWindowActiveTerminal tracker windowStorage
    ∧ storeGet (runTitleMutations false key tracker true localStorage windowStorage
        (title0 :: rest)).2.1 key = some title0 := by
  refine ⟨rfl, by rw [titleMutationStep]; simp, rfl, rfl, ?_⟩
  rw [runTitleMutations]
  have hstep : titleMutationStep false key tracker true localStorage windowStorage title0
      = (false, storeSet localStorage key title0,
         maybeUpdateWindowActiveTerminal tracker windowStorage) := rfl
  rw [hstep]
  rw [runTitleMutations_notFirst]
  exact storeGet_set_self localStorage key title0

end Terminal
